import Mathlib

/-
  Shallow embedding of src/frontend/src/components/examples/APIUsageExamples.js.

  The file contains two React components, `APIUsageExamples` (six async
  handlers: fetchEvents, createEvent, updateEvent, deleteEvent,
  fetchWithAuth, submitOrder) and `EventListExample` (one effect that
  fetches the event list on mount).  Each handler is embedded as a pure
  function from the outcome(s) of its underlying HTTP call(s) to the list
  of effects it performs (state setters, issued requests, console output),
  mirroring the source line by line.  Component state is recovered by
  folding the effects over a state record.

  The HTTP helper `api` is imported from `@/lib/api`, which is not part of
  the provided sources; its behaviour (axios semantics, as the source's own
  comments state: "using the axios API helper") is modelled from the spec.
-/

namespace FomoApp

/-- Event payload as used by the components (only the fields the embedded
code reads; the client enforces no invariants on it). -/
structure Event where
  id : String
  title : String
  description : String
  deriving Repr, DecidableEq

/-- Response data shape of `POST /events` as read by createEvent
(`response.data.id`). -/
structure CreateResp where
  id : String
  deriving Repr, DecidableEq

/-- Response data shape of `GET /auth/user` as read by fetchWithAuth
(`response.data.email`). -/
structure UserResp where
  email : String
  deriving Repr, DecidableEq

/-- Response data shape of `POST /orders` as read by submitOrder
(`response.data.orderId`). -/
structure OrderResp where
  orderId : String
  deriving Repr, DecidableEq

/-- Modelled from the spec: the normalized result of one HTTP round trip,
as delivered by the api helper from `@/lib/api` (absent from the sources).
`success status data` is a response with status in [200,400) and parsed
body `data`; `protocolFailure status bodyMessage` is a response with
status at least 400 whose parsed body carries the conventional message
field when `bodyMessage` is `some`; `transportFailure desc` is a
network-level failure with no response received. -/
inductive Outcome (α : Type) where
  | success (status : Nat) (data : α)
  | protocolFailure (status : Nat) (bodyMessage : Option String)
  | transportFailure (desc : String)
  deriving Repr

/-- The error value a rejected api call throws: `message` is the
JavaScript `error.message`, `responseDataMessage` is
`error.response?.data?.message` (none when there is no response or the
body has no message field). -/
structure JsError where
  message : String
  responseDataMessage : Option String
  deriving Repr, DecidableEq

/-- Modelled from the spec: the default human-readable message derived
from the status code for a protocol failure (axios sets `error.message`
to this string). -/
def axiosDefaultMessage (status : Nat) : String :=
  "Request failed with status code " ++ toString status

/-- Modelled from the spec: `await api.get/post/patch/delete` resolves
with the parsed data on a success status and throws a `JsError` on a
protocol failure (status at least 400, `error.message` the default derived
from the status, `error.response.data.message` the body's message field)
or a transport failure (`error.message` describes the transport error,
`error.response` is absent). -/
def apiCall {α : Type} : Outcome α → Except JsError α
  | .success _ d => .ok d
  | .protocolFailure st m => .error ⟨axiosDefaultMessage st, m⟩
  | .transportFailure d => .error ⟨d, none⟩

/-- HTTP method of a request issued by the component. -/
inductive Method where
  | GET | POST | PATCH | DELETE
  deriving Repr, DecidableEq

/-- A dispatched request: method, path relative to the base URL, and the
per-call headers the call site supplies. -/
structure Request where
  method : Method
  path : String
  headers : List (String × String)
  deriving Repr, DecidableEq

/-- One observable step a handler performs: a React state setter, an
issued HTTP request, or a console.error. -/
inductive Effect where
  | setLoading (b : Bool)
  | setMessage (m : String)
  | setEvents (es : List Event)
  | request (r : Request)
  | consoleError (tag : String)
  deriving Repr, DecidableEq

/-- The component state of APIUsageExamples: `events`, `loading`,
`message` (the three useState hooks). -/
structure ComponentState where
  events : List Event
  loading : Bool
  message : String
  deriving Repr, DecidableEq

/-- Apply one effect to the component state (requests and console output
do not change state). -/
def applyEffect (s : ComponentState) : Effect → ComponentState
  | .setLoading b => { s with loading := b }
  | .setMessage m => { s with message := m }
  | .setEvents es => { s with events := es }
  | .request _ => s
  | .consoleError _ => s

/-- Run a whole effect trace over a state. -/
def applyTrace (s : ComponentState) (t : List Effect) : ComponentState :=
  t.foldl applyEffect s

/-- The requests a trace dispatches, in order. -/
def requestsOf (t : List Effect) : List Request :=
  t.filterMap fun e => match e with | .request r => some r | _ => none

/-- The JavaScript expression `error.response?.data?.message ||
error.message` used by five of the six handlers: the body's message field
when present and non-empty (JavaScript truthiness), otherwise the error's
own message. -/
def errDisplay (e : JsError) : String :=
  match e.responseDataMessage with
  | some m => if m = "" then e.message else m
  | none => e.message

/-- The request fetchEvents dispatches: `api.get('/events')`. -/
def getEventsReq : Request := ⟨.GET, "/events", []⟩

/-- fetchEvents (lines 15-29): setLoading(true); setMessage('');
try await api.get('/events'); on success setEvents(response.data) and a
fetched-count message; on error console.error and
setMessage with `error.message`; finally setLoading(false). -/
def fetchEvents (out : Outcome (List Event)) : List Effect :=
  [.setLoading true, .setMessage "", .request getEventsReq] ++
  (match apiCall out with
   | .ok d => [.setEvents d,
       .setMessage ("✅ Fetched " ++ toString d.length ++ " events")]
   | .error e => [.consoleError "Error fetching events:",
       .setMessage ("❌ Error: " ++ e.message)]) ++
  [.setLoading false]

/-- createEvent (lines 32-58): POST /events; on success a created-with-id
message then a refetch of the list (fetchEvents); on error console.error
and setMessage with `error.response?.data?.message || error.message`;
finally setLoading(false). -/
def createEvent (postOut : Outcome CreateResp)
    (refetch : Outcome (List Event)) : List Effect :=
  [.setLoading true, .setMessage "", .request ⟨.POST, "/events", []⟩] ++
  (match apiCall postOut with
   | .ok d => .setMessage ("✅ Event created with ID: " ++ d.id) ::
       fetchEvents refetch
   | .error e => [.consoleError "Error creating event:",
       .setMessage ("❌ Error: " ++ errDisplay e)]) ++
  [.setLoading false]

/-- updateEvent (lines 61-81): PATCH /events/eventId; on success a fixed
updated message then a refetch of the list; on error console.error and
setMessage with `error.response?.data?.message || error.message`; finally
setLoading(false). -/
def updateEvent (eventId : String) (patchOut : Outcome Unit)
    (refetch : Outcome (List Event)) : List Effect :=
  [.setLoading true, .setMessage "",
   .request ⟨.PATCH, "/events/" ++ eventId, []⟩] ++
  (match apiCall patchOut with
   | .ok _ => .setMessage "✅ Event updated successfully" ::
       fetchEvents refetch
   | .error e => [.consoleError "Error updating event:",
       .setMessage ("❌ Error: " ++ errDisplay e)]) ++
  [.setLoading false]

/-- deleteEvent (lines 84-99): DELETE /events/eventId; on success a fixed
deleted message then a refetch of the list; on error console.error and
setMessage with `error.response?.data?.message || error.message`; finally
setLoading(false). -/
def deleteEvent (eventId : String) (delOut : Outcome Unit)
    (refetch : Outcome (List Event)) : List Effect :=
  [.setLoading true, .setMessage "",
   .request ⟨.DELETE, "/events/" ++ eventId, []⟩] ++
  (match apiCall delOut with
   | .ok _ => .setMessage "✅ Event deleted successfully" ::
       fetchEvents refetch
   | .error e => [.consoleError "Error deleting event:",
       .setMessage ("❌ Error: " ++ errDisplay e)]) ++
  [.setLoading false]

/-- fetchWithAuth (lines 102-119): GET /auth/user with an Authorization
header of `Bearer ` followed by the token; on success a message with the
user's email; on error console.error and setMessage with
`error.response?.data?.message || error.message`; finally
setLoading(false). -/
def fetchWithAuth (token : String) (out : Outcome UserResp) : List Effect :=
  [.setLoading true, .setMessage "",
   .request ⟨.GET, "/auth/user", [("Authorization", "Bearer " ++ token)]⟩] ++
  (match apiCall out with
   | .ok d => [.setMessage ("✅ User data fetched: " ++ d.email)]
   | .error e => [.consoleError "Error fetching user:",
       .setMessage ("❌ Error: " ++ errDisplay e)]) ++
  [.setLoading false]

/-- submitOrder (lines 122-149): POST /orders with a custom header; on
success a message with the order id; on error console.error and
setMessage with `error.response?.data?.message || error.message`; finally
setLoading(false). -/
def submitOrder (out : Outcome OrderResp) : List Effect :=
  [.setLoading true, .setMessage "",
   .request ⟨.POST, "/orders", [("X-Custom-Header", "custom-value")]⟩] ++
  (match apiCall out with
   | .ok d => [.setMessage ("✅ Order created: " ++ d.orderId)]
   | .error e => [.consoleError "Error creating order:",
       .setMessage ("❌ Error: " ++ errDisplay e)]) ++
  [.setLoading false]

/-- Component state of EventListExample (lines 292-309): `events`,
`loading`, `error`. -/
structure ListExampleState where
  events : List Event
  loading : Bool
  error : Option String
  deriving Repr, DecidableEq

/-- The mount effect of EventListExample: api.get('/events') then
setEvents(response.data) and setLoading(false), or on error
setError(error.message) and setLoading(false). -/
def eventListExampleLoad (s : ListExampleState)
    (out : Outcome (List Event)) : ListExampleState :=
  match apiCall out with
  | .ok d => { s with events := d, loading := false }
  | .error e => { s with error := some e.message, loading := false }

/-- The events state a run of fetchEvents leaves behind: the fetched data
on success, the prior events otherwise. -/
def eventsAfterFetch (prior : List Event)
    (out : Outcome (List Event)) : List Event :=
  match apiCall out with
  | .ok d => d
  | .error _ => prior

/-- Whether an outcome is a success (a response with status in
[200,400)). -/
def Outcome.isSuccess {α : Type} : Outcome α → Bool
  | .success _ _ => true
  | _ => false

/-- C1 counterexample: a GET /events answered with status 404 and body
message "not found" makes fetchEvents surface the status-code default
("Request failed with status code 404"), not the body's message field:
fetchEvents displays `error.message`, unlike the other five handlers. -/
theorem c1_counterexample :
    (applyTrace ⟨[], false, ""⟩
        (fetchEvents (.protocolFailure 404 (some "not found")))).message
      = "❌ Error: Request failed with status code 404"
    ∧ (applyTrace ⟨[], false, ""⟩
        (fetchEvents (.protocolFailure 404 (some "not found")))).message
      ≠ "❌ Error: not found"
    ∧ (applyTrace ⟨[], false, ""⟩
        (fetchEvents (.protocolFailure 404 (some "not found")))).message
      ≠ "not found" := by
  refine ⟨rfl, by decide, by decide⟩

/-- C1 (amended): for createEvent, updateEvent, deleteEvent,
fetchWithAuth and submitOrder, a protocol failure whose body carries a
non-empty message field surfaces that message; fetchEvents instead always
surfaces the error's own message, which for a protocol failure is the
default derived from the status code, never the body's message field. -/
theorem c1_amended (s : ComponentState) (st : Nat) (m eid tok : String)
    (r : Outcome (List Event)) (hm : m ≠ "") :
    errDisplay ⟨axiosDefaultMessage st, some m⟩ = m
    ∧ (applyTrace s
        (createEvent (.protocolFailure st (some m)) r)).message
      = "❌ Error: " ++ m
    ∧ (applyTrace s
        (updateEvent eid (.protocolFailure st (some m)) r)).message
      = "❌ Error: " ++ m
    ∧ (applyTrace s
        (deleteEvent eid (.protocolFailure st (some m)) r)).message
      = "❌ Error: " ++ m
    ∧ (applyTrace s
        (fetchWithAuth tok (.protocolFailure st (some m)))).message
      = "❌ Error: " ++ m
    ∧ (applyTrace s (submitOrder (.protocolFailure st (some m)))).message
      = "❌ Error: " ++ m
    ∧ (applyTrace s (fetchEvents (.protocolFailure st (some m)))).message
      = "❌ Error: " ++ axiosDefaultMessage st := by
  refine ⟨?_, ?_, ?_, ?_, ?_, ?_, ?_⟩ <;>
    simp [errDisplay, createEvent, updateEvent, deleteEvent, fetchWithAuth,
      submitOrder, fetchEvents, apiCall, applyTrace, applyEffect, hm]

/-- C1 amended, witnessed at the spec's concrete input: status 404, body
message "not found". -/
theorem c1_amended_witness :
    "not found" ≠ ""
    ∧ (errDisplay ⟨axiosDefaultMessage 404, some "not found"⟩ = "not found"
      ∧ (applyTrace ⟨[], false, ""⟩
          (createEvent (.protocolFailure 404 (some "not found"))
            (.transportFailure "offline"))).message
        = "❌ Error: " ++ "not found"
      ∧ (applyTrace ⟨[], false, ""⟩
          (updateEvent "xyz" (.protocolFailure 404 (some "not found"))
            (.transportFailure "offline"))).message
        = "❌ Error: " ++ "not found"
      ∧ (applyTrace ⟨[], false, ""⟩
          (deleteEvent "xyz" (.protocolFailure 404 (some "not found"))
            (.transportFailure "offline"))).message
        = "❌ Error: " ++ "not found"
      ∧ (applyTrace ⟨[], false, ""⟩
          (fetchWithAuth "tok"
            (.protocolFailure 404 (some "not found")))).message
        = "❌ Error: " ++ "not found"
      ∧ (applyTrace ⟨[], false, ""⟩
          (submitOrder (.protocolFailure 404 (some "not found")))).message
        = "❌ Error: " ++ "not found"
      ∧ (applyTrace ⟨[], false, ""⟩
          (fetchEvents (.protocolFailure 404 (some "not found")))).message
        = "❌ Error: " ++ axiosDefaultMessage 404) :=
  ⟨by decide,
   c1_amended ⟨[], false, ""⟩ 404 "not found" "xyz" "tok"
     (.transportFailure "offline") (by decide)⟩

/-- C5: a POST /events resolving with status 201 and body id "abc123"
resolves as a success whose data's id field is "abc123", and, for every
status and id the server returns, createEvent reports exactly that id in
its success message. -/
theorem c5_create_success_reports_id (st : Nat) (i : String)
    (r : Outcome (List Event)) :
    apiCall (Outcome.success 201 (⟨"abc123"⟩ : CreateResp))
      = .ok ⟨"abc123"⟩
    ∧ apiCall (Outcome.success st (⟨i⟩ : CreateResp)) = .ok ⟨i⟩
    ∧ Effect.setMessage ("✅ Event created with ID: " ++ i)
        ∈ createEvent (.success st ⟨i⟩) r := by
  refine ⟨rfl, rfl, ?_⟩
  simp [createEvent, apiCall]

/-- C6: fetchWithAuth issues exactly one GET of /auth/user whose
Authorization header is the string "Bearer " followed by the token, and
the resulting component state is the same whatever token was supplied
(no credential is stored between calls). -/
theorem c6_bearer_token_per_call (t t2 : String) (out : Outcome UserResp)
    (s : ComponentState) :
    requestsOf (fetchWithAuth t out)
      = [⟨.GET, "/auth/user", [("Authorization", "Bearer " ++ t)]⟩]
    ∧ applyTrace s (fetchWithAuth t out)
      = applyTrace s (fetchWithAuth t2 out) := by
  constructor
  · cases out <;> simp [fetchWithAuth, requestsOf, apiCall]
  · cases out <;>
      simp [fetchWithAuth, applyTrace, applyEffect, apiCall]

/-- C9: fetchWithAuth and submitOrder never modify the events list: for
every outcome, the events state after the call equals the events state
before it. -/
theorem c9_auth_and_order_preserve_events (s : ComponentState)
    (tok : String) (outU : Outcome UserResp) (outO : Outcome OrderResp) :
    (applyTrace s (fetchWithAuth tok outU)).events = s.events
    ∧ (applyTrace s (submitOrder outO)).events = s.events := by
  constructor
  · cases outU <;> simp [fetchWithAuth, applyTrace, applyEffect, apiCall]
  · cases outO <;> simp [submitOrder, applyTrace, applyEffect, apiCall]

/-- C2: the events state always mirrors the last successful GET /events:
fetchEvents (directly or as a refetch inside a mutation handler) is the
only place events is set, it is set to the fetched data on success, and
every failure path leaves events unchanged; likewise for
EventListExample. -/
theorem c2_events_mirror_last_successful_fetch (s : ComponentState)
    (out r : Outcome (List Event)) (postOut : Outcome CreateResp)
    (patchOut delOut : Outcome Unit) (eid tok : String)
    (outU : Outcome UserResp) (outO : Outcome OrderResp)
    (ls : ListExampleState) :
    (applyTrace s (fetchEvents out)).events = eventsAfterFetch s.events out
    ∧ (applyTrace s (createEvent postOut r)).events
      = (match apiCall postOut with
         | .ok _ => eventsAfterFetch s.events r
         | .error _ => s.events)
    ∧ (applyTrace s (updateEvent eid patchOut r)).events
      = (match apiCall patchOut with
         | .ok _ => eventsAfterFetch s.events r
         | .error _ => s.events)
    ∧ (applyTrace s (deleteEvent eid delOut r)).events
      = (match apiCall delOut with
         | .ok _ => eventsAfterFetch s.events r
         | .error _ => s.events)
    ∧ (applyTrace s (fetchWithAuth tok outU)).events = s.events
    ∧ (applyTrace s (submitOrder outO)).events = s.events
    ∧ (eventListExampleLoad ls out).events = eventsAfterFetch ls.events out := by
  refine ⟨?_, ?_, ?_, ?_, ?_, ?_, ?_⟩
  · cases out <;>
      simp [fetchEvents, eventsAfterFetch, apiCall, applyTrace, applyEffect]
  · cases postOut <;> cases r <;>
      simp [createEvent, fetchEvents, eventsAfterFetch, apiCall,
        applyTrace, applyEffect]
  · cases patchOut <;> cases r <;>
      simp [updateEvent, fetchEvents, eventsAfterFetch, apiCall,
        applyTrace, applyEffect]
  · cases delOut <;> cases r <;>
      simp [deleteEvent, fetchEvents, eventsAfterFetch, apiCall,
        applyTrace, applyEffect]
  · cases outU <;> simp [fetchWithAuth, apiCall, applyTrace, applyEffect]
  · cases outO <;> simp [submitOrder, apiCall, applyTrace, applyEffect]
  · cases out <;>
      simp [eventListExampleLoad, eventsAfterFetch, apiCall]

/-- C3: each mutation handler dispatches its own request first and then a
GET /events refetch exactly when the mutation succeeded; on a failed
mutation no refetch (or any other follow-up) is issued. -/
theorem c3_refetch_iff_mutation_success (postOut : Outcome CreateResp)
    (patchOut delOut : Outcome Unit) (eid : String)
    (r : Outcome (List Event)) :
    requestsOf (createEvent postOut r)
      = ⟨.POST, "/events", []⟩ ::
        (match apiCall postOut with
         | .ok _ => [getEventsReq] | .error _ => [])
    ∧ requestsOf (updateEvent eid patchOut r)
      = ⟨.PATCH, "/events/" ++ eid, []⟩ ::
        (match apiCall patchOut with
         | .ok _ => [getEventsReq] | .error _ => [])
    ∧ requestsOf (deleteEvent eid delOut r)
      = ⟨.DELETE, "/events/" ++ eid, []⟩ ::
        (match apiCall delOut with
         | .ok _ => [getEventsReq] | .error _ => [])
    ∧ (getEventsReq ∈ requestsOf (createEvent postOut r)
        ↔ postOut.isSuccess = true) := by
  refine ⟨?_, ?_, ?_, ?_⟩
  · cases postOut <;> cases r <;>
      simp [createEvent, fetchEvents, requestsOf, apiCall, getEventsReq]
  · cases patchOut <;> cases r <;>
      simp [updateEvent, fetchEvents, requestsOf, apiCall, getEventsReq]
  · cases delOut <;> cases r <;>
      simp [deleteEvent, fetchEvents, requestsOf, apiCall, getEventsReq]
  · cases postOut <;> cases r <;>
      simp [createEvent, fetchEvents, requestsOf, apiCall, getEventsReq,
        Outcome.isSuccess, Request.mk.injEq]

/-- C7: the client neither caches nor dedupes: every fetchEvents run
dispatches exactly one fresh GET /events (so two sequential runs dispatch
two), and after a successful DELETE the displayed list is exactly
whatever the refetch returned from the server, so the deletion shows only
if the remote state changed. -/
theorem c7_no_cache_fresh_requests (s : ComponentState)
    (o1 o2 : Outcome (List Event)) (eid : String) (delSt fetchSt : Nat)
    (l : List Event) :
    requestsOf (fetchEvents o1) = [getEventsReq]
    ∧ requestsOf (fetchEvents o1 ++ fetchEvents o2)
      = [getEventsReq, getEventsReq]
    ∧ (applyTrace s
        (deleteEvent eid (.success delSt ())
          (.success fetchSt l))).events = l := by
  refine ⟨?_, ?_, ?_⟩
  · cases o1 <;> simp [fetchEvents, requestsOf, apiCall, getEventsReq]
  · cases o1 <;> cases o2 <;>
      simp [fetchEvents, requestsOf, apiCall, getEventsReq]
  · simp [deleteEvent, fetchEvents, apiCall, applyTrace, applyEffect]

/-- A trace both begins by setting loading to true and ends by setting it
back to false (the entry setLoading(true) and the finally block's
setLoading(false)). -/
def loadingLifecycle (t : List Effect) : Prop :=
  t.head? = some (Effect.setLoading true)
    ∧ t.getLast? = some (Effect.setLoading false)

/-- C8: every handler sets loading to true on entry and, on every path
(success, protocol failure, transport failure), its finally block sets
loading back to false, so the handler's trace starts with
setLoading(true), ends with setLoading(false), and leaves loading false. -/
theorem c8_loading_reset_on_every_path (s : ComponentState)
    (out r : Outcome (List Event)) (postOut : Outcome CreateResp)
    (patchOut delOut : Outcome Unit) (eid tok : String)
    (outU : Outcome UserResp) (outO : Outcome OrderResp) :
    (loadingLifecycle (fetchEvents out)
      ∧ (applyTrace s (fetchEvents out)).loading = false)
    ∧ (loadingLifecycle (createEvent postOut r)
      ∧ (applyTrace s (createEvent postOut r)).loading = false)
    ∧ (loadingLifecycle (updateEvent eid patchOut r)
      ∧ (applyTrace s (updateEvent eid patchOut r)).loading = false)
    ∧ (loadingLifecycle (deleteEvent eid delOut r)
      ∧ (applyTrace s (deleteEvent eid delOut r)).loading = false)
    ∧ (loadingLifecycle (fetchWithAuth tok outU)
      ∧ (applyTrace s (fetchWithAuth tok outU)).loading = false)
    ∧ (loadingLifecycle (submitOrder outO)
      ∧ (applyTrace s (submitOrder outO)).loading = false) := by
  refine ⟨⟨⟨?_, ?_⟩, ?_⟩, ⟨⟨?_, ?_⟩, ?_⟩, ⟨⟨?_, ?_⟩, ?_⟩,
    ⟨⟨?_, ?_⟩, ?_⟩, ⟨⟨?_, ?_⟩, ?_⟩, ⟨⟨?_, ?_⟩, ?_⟩⟩
  · cases out <;> rfl
  · cases out <;> rfl
  · cases out <;> simp [fetchEvents, apiCall, applyTrace, applyEffect]
  · cases postOut <;> cases r <;> rfl
  · cases postOut <;> cases r <;> rfl
  · cases postOut <;> cases r <;>
      simp [createEvent, fetchEvents, apiCall, applyTrace, applyEffect]
  · cases patchOut <;> cases r <;> rfl
  · cases patchOut <;> cases r <;> rfl
  · cases patchOut <;> cases r <;>
      simp [updateEvent, fetchEvents, apiCall, applyTrace, applyEffect]
  · cases delOut <;> cases r <;> rfl
  · cases delOut <;> cases r <;> rfl
  · cases delOut <;> cases r <;>
      simp [deleteEvent, fetchEvents, apiCall, applyTrace, applyEffect]
  · cases outU <;> rfl
  · cases outU <;> rfl
  · cases outU <;> simp [fetchWithAuth, apiCall, applyTrace, applyEffect]
  · cases outO <;> rfl
  · cases outO <;> rfl
  · cases outO <;> simp [submitOrder, apiCall, applyTrace, applyEffect]

/-- A trace displays a failure message: some setMessage whose text starts
with the error prefix. -/
def handlerContainsError (t : List Effect) : Prop :=
  ∃ m, Effect.setMessage ("❌ Error: " ++ m) ∈ t

/-- A trace runs to completion: its last effect is the finally block's
setLoading(false), so the thrown error was caught and did not escape. -/
def handlerCompletes (t : List Effect) : Prop :=
  t.getLast? = some (Effect.setLoading false)

/-- The message and loading a trace leaves behind are the same from any
prior component state: a prior call's outcome cannot change a later
call's displayed result. -/
def uiResultStateBlind (t : List Effect) : Prop :=
  ∀ s s2 : ComponentState,
    (applyTrace s t).message = (applyTrace s2 t).message
    ∧ (applyTrace s t).loading = (applyTrace s2 t).loading

/-- C4: no failure escapes a handler and none is fatal: on every failing
outcome each handler catches the error, displays a failure message, and
still runs its finally block to completion; and every handler's displayed
result is determined by its own call's outcome alone, unaffected by
whatever state prior calls (failed or not) left behind. -/
theorem c4_failures_contained_and_calls_independent
    (out fr rr : Outcome (List Event)) (postOut rc : Outcome CreateResp)
    (patchOut delOut rp rd : Outcome Unit) (eid tok : String)
    (outU : Outcome UserResp) (ru : Outcome UserResp)
    (outO : Outcome OrderResp) (ro : Outcome OrderResp)
    (hF : out.isSuccess = false) (hC : postOut.isSuccess = false)
    (hP : patchOut.isSuccess = false) (hD : delOut.isSuccess = false)
    (hU : outU.isSuccess = false) (hO : outO.isSuccess = false) :
    (handlerContainsError (fetchEvents out)
      ∧ handlerCompletes (fetchEvents out))
    ∧ (handlerContainsError (createEvent postOut rr)
      ∧ handlerCompletes (createEvent postOut rr))
    ∧ (handlerContainsError (updateEvent eid patchOut rr)
      ∧ handlerCompletes (updateEvent eid patchOut rr))
    ∧ (handlerContainsError (deleteEvent eid delOut rr)
      ∧ handlerCompletes (deleteEvent eid delOut rr))
    ∧ (handlerContainsError (fetchWithAuth tok outU)
      ∧ handlerCompletes (fetchWithAuth tok outU))
    ∧ (handlerContainsError (submitOrder outO)
      ∧ handlerCompletes (submitOrder outO))
    ∧ uiResultStateBlind (fetchEvents fr)
    ∧ uiResultStateBlind (createEvent rc rr)
    ∧ uiResultStateBlind (updateEvent eid rp rr)
    ∧ uiResultStateBlind (deleteEvent eid rd rr)
    ∧ uiResultStateBlind (fetchWithAuth tok ru)
    ∧ uiResultStateBlind (submitOrder ro) := by
  refine ⟨⟨?_, ?_⟩, ⟨?_, ?_⟩, ⟨?_, ?_⟩, ⟨?_, ?_⟩, ⟨?_, ?_⟩, ⟨?_, ?_⟩,
    ?_, ?_, ?_, ?_, ?_, ?_⟩
  · cases out with
    | success st d => simp [Outcome.isSuccess] at hF
    | protocolFailure st bm =>
        exact ⟨axiosDefaultMessage st, by simp [fetchEvents, apiCall]⟩
    | transportFailure d => exact ⟨d, by simp [fetchEvents, apiCall]⟩
  · cases out with
    | success st d => simp [Outcome.isSuccess] at hF
    | protocolFailure st bm => rfl
    | transportFailure d => rfl
  · cases postOut with
    | success st d => simp [Outcome.isSuccess] at hC
    | protocolFailure st bm =>
        exact ⟨errDisplay ⟨axiosDefaultMessage st, bm⟩,
          by simp [createEvent, apiCall]⟩
    | transportFailure d =>
        exact ⟨errDisplay ⟨d, none⟩, by simp [createEvent, apiCall]⟩
  · cases postOut with
    | success st d => simp [Outcome.isSuccess] at hC
    | protocolFailure st bm => rfl
    | transportFailure d => rfl
  · cases patchOut with
    | success st d => simp [Outcome.isSuccess] at hP
    | protocolFailure st bm =>
        exact ⟨errDisplay ⟨axiosDefaultMessage st, bm⟩,
          by simp [updateEvent, apiCall]⟩
    | transportFailure d =>
        exact ⟨errDisplay ⟨d, none⟩, by simp [updateEvent, apiCall]⟩
  · cases patchOut with
    | success st d => simp [Outcome.isSuccess] at hP
    | protocolFailure st bm => rfl
    | transportFailure d => rfl
  · cases delOut with
    | success st d => simp [Outcome.isSuccess] at hD
    | protocolFailure st bm =>
        exact ⟨errDisplay ⟨axiosDefaultMessage st, bm⟩,
          by simp [deleteEvent, apiCall]⟩
    | transportFailure d =>
        exact ⟨errDisplay ⟨d, none⟩, by simp [deleteEvent, apiCall]⟩
  · cases delOut with
    | success st d => simp [Outcome.isSuccess] at hD
    | protocolFailure st bm => rfl
    | transportFailure d => rfl
  · cases outU with
    | success st d => simp [Outcome.isSuccess] at hU
    | protocolFailure st bm =>
        exact ⟨errDisplay ⟨axiosDefaultMessage st, bm⟩,
          by simp [fetchWithAuth, apiCall]⟩
    | transportFailure d =>
        exact ⟨errDisplay ⟨d, none⟩, by simp [fetchWithAuth, apiCall]⟩
  · cases outU with
    | success st d => simp [Outcome.isSuccess] at hU
    | protocolFailure st bm => rfl
    | transportFailure d => rfl
  · cases outO with
    | success st d => simp [Outcome.isSuccess] at hO
    | protocolFailure st bm =>
        exact ⟨errDisplay ⟨axiosDefaultMessage st, bm⟩,
          by simp [submitOrder, apiCall]⟩
    | transportFailure d =>
        exact ⟨errDisplay ⟨d, none⟩, by simp [submitOrder, apiCall]⟩
  · cases outO with
    | success st d => simp [Outcome.isSuccess] at hO
    | protocolFailure st bm => rfl
    | transportFailure d => rfl
  · intro s s2
    cases fr <;> simp [fetchEvents, apiCall, applyTrace, applyEffect]
  · intro s s2
    cases rc <;> cases rr <;>
      simp [createEvent, fetchEvents, apiCall, applyTrace, applyEffect]
  · intro s s2
    cases rp <;> cases rr <;>
      simp [updateEvent, fetchEvents, apiCall, applyTrace, applyEffect]
  · intro s s2
    cases rd <;> cases rr <;>
      simp [deleteEvent, fetchEvents, apiCall, applyTrace, applyEffect]
  · intro s s2
    cases ru <;> simp [fetchWithAuth, apiCall, applyTrace, applyEffect]
  · intro s s2
    cases ro <;> simp [submitOrder, apiCall, applyTrace, applyEffect]

/-- C4, witnessed at concrete failing outcomes (a 500 with no body
message, a transport failure, a 401 carrying a body message) and concrete
follow-up outcomes. -/
theorem c4_failures_contained_witness :
    (Outcome.protocolFailure 500 none
        : Outcome (List Event)).isSuccess = false
    ∧ ((handlerContainsError
          (fetchEvents (.protocolFailure 500 none))
        ∧ handlerCompletes (fetchEvents (.protocolFailure 500 none)))
      ∧ (handlerContainsError
          (createEvent (.protocolFailure 500 none) (.success 200 []))
        ∧ handlerCompletes
          (createEvent (.protocolFailure 500 none) (.success 200 [])))
      ∧ (handlerContainsError
          (updateEvent "xyz" (.transportFailure "offline")
            (.success 200 []))
        ∧ handlerCompletes
          (updateEvent "xyz" (.transportFailure "offline")
            (.success 200 [])))
      ∧ (handlerContainsError
          (deleteEvent "xyz" (.transportFailure "offline")
            (.success 200 []))
        ∧ handlerCompletes
          (deleteEvent "xyz" (.transportFailure "offline")
            (.success 200 [])))
      ∧ (handlerContainsError
          (fetchWithAuth "tok" (.protocolFailure 401 (some "unauthorized")))
        ∧ handlerCompletes
          (fetchWithAuth "tok" (.protocolFailure 401 (some "unauthorized"))))
      ∧ (handlerContainsError (submitOrder (.protocolFailure 400 none))
        ∧ handlerCompletes (submitOrder (.protocolFailure 400 none)))
      ∧ uiResultStateBlind (fetchEvents (.success 200 []))
      ∧ uiResultStateBlind
          (createEvent (.success 201 ⟨"abc123"⟩) (.success 200 []))
      ∧ uiResultStateBlind
          (updateEvent "xyz" (.success 200 ()) (.success 200 []))
      ∧ uiResultStateBlind
          (deleteEvent "xyz" (.success 204 ()) (.success 200 []))
      ∧ uiResultStateBlind (fetchWithAuth "tok" (.success 200 ⟨"a@b.c"⟩))
      ∧ uiResultStateBlind (submitOrder (.success 201 ⟨"ord1"⟩))) :=
  ⟨rfl,
   c4_failures_contained_and_calls_independent
     (.protocolFailure 500 none) (.success 200 []) (.success 200 [])
     (.protocolFailure 500 none) (.success 201 ⟨"abc123"⟩)
     (.transportFailure "offline") (.transportFailure "offline")
     (.success 200 ()) (.success 204 ()) "xyz" "tok"
     (.protocolFailure 401 (some "unauthorized")) (.success 200 ⟨"a@b.c"⟩)
     (.protocolFailure 400 none) (.success 201 ⟨"ord1"⟩)
     rfl rfl rfl rfl rfl rfl⟩

end FomoApp
